import Mathlib

/-!
Verification of the per-tick input core of `src/webxr/openxr/input.rs`
(Manishearth/rust-webxr): the button debounce state machine
(`ClickState::update`), the menu palm-gesture sustain counter, pose
validity resolution (`pose_for`) and the per-tick aggregation
(`OpenXRInput::frame`).

The Rust code is shallowly embedded: the `u8` sustain counter is a `Nat`
with an explicit `% 256` where the code increments it; fallible backend
queries (`action.state(...)`, `space.locate(...)`) are `Except` values
supplied by a per-tick oracle, and the code applying `.unwrap()` to them
is modelled as an `Except` computation that aborts with a `panicked`
token when the query is an error. Floating-point vector arithmetic in
the gesture detector (two dot products compared against 0.95) is
abstracted by exact rational values of those dot products, supplied as
inputs; the branch structure around them follows the source exactly.
-/

namespace WebXR

/-- Events reported for a button, from webxr_api::SelectEvent as used in
src/webxr/openxr/input.rs: Start of a press, a completed Select, or an
abnormal End. -/
inductive SelectEvent where
  | Start
  | Select
  | End
deriving DecidableEq, Repr, BEq

/-- The latched per-button phase, from `enum ClickState` in
src/webxr/openxr/input.rs lines 19-23. -/
inductive ClickState where
  | Clicking
  | Done
deriving DecidableEq, Repr

/-- The raw per-tick button sample returned by the OpenXR call
`action.state(session, Path::NULL)`: the fields of openxr::ActionState
for a Bool action that the code reads (is_active, current_state). -/
structure ActionStateBool where
  is_active : Bool
  current_state : Bool
deriving DecidableEq, Repr

/-- Embeds `ClickState::update` (src/webxr/openxr/input.rs lines 34-67),
with the result of the `action.state` query passed in as `click`.
Returns the new phase together with the pair the Rust function returns:
`(is_active, Option<SelectEvent>)`. The match arms appear in source
order: the guarded arm `(_, Clicking) if menu_selected` emitting End,
then `(true, Done)` emitting Start, then `(false, Clicking)` emitting
Select, then the catch-all emitting nothing; when `is_active` is false a
Clicking phase emits End and anything else emits nothing. -/
def ClickState.update (self : ClickState) (click : ActionStateBool)
    (menu_selected : Bool) : ClickState × Bool × Option SelectEvent :=
  if click.is_active then
    match click.current_state, self, menu_selected with
    | _, ClickState.Clicking, true =>
        (ClickState.Done, true, some SelectEvent.End)
    | true, ClickState.Done, _ =>
        (ClickState.Clicking, true, some SelectEvent.Start)
    | false, ClickState.Clicking, false =>
        (ClickState.Done, true, some SelectEvent.Select)
    | _, _, _ => (self, true, none)
  else if self = ClickState.Clicking then
    (ClickState.Done, false, some SelectEvent.End)
  else
    (self, false, none)

/-- C1 counterexample: in phase Done with is_active=true,
current_state=true and menu_selected=true, the update does NOT leave the
phase unchanged with no event: the source arm `(true, Done)` carries no
menu_selected guard, so it fires. -/
theorem update_done_menu_counterexample :
    ¬ ((ClickState.update ClickState.Done
          { is_active := true, current_state := true } true).1
            = ClickState.Done
        ∧ (ClickState.update ClickState.Done
          { is_active := true, current_state := true } true).2.2 = none) := by
  decide

/-- C1 amended: in phase Done with is_active=true and current_state=true,
the update emits Start and moves to Clicking for every value of
menu_selected; the transition is not a no-op when menu_selected=true. -/
theorem update_done_pressed_starts (menu_selected : Bool) :
    ClickState.update ClickState.Done
        { is_active := true, current_state := true } menu_selected
      = (ClickState.Clicking, true, some SelectEvent.Start) := by
  cases menu_selected <;> rfl

/-- C7: in phase Clicking with is_active=true, current_state=false and
menu_selected=true, the emitted event is End (never Select) and the new
phase is Done: the gesture-cancellation arm precedes the release arm. -/
theorem update_gesture_preempts_release :
    ClickState.update ClickState.Clicking
        { is_active := true, current_state := false } true
      = (ClickState.Done, true, some SelectEvent.End) := by
  rfl

/-- C8: in phase Clicking, a sample with is_active=false emits End and
moves the phase to Done, for every current_state and menu_selected. -/
theorem update_inactive_ends_click (current_state menu_selected : Bool) :
    ClickState.update ClickState.Clicking
        { is_active := false, current_state := current_state } menu_selected
      = (ClickState.Done, false, some SelectEvent.End) := by
  cases current_state <;> cases menu_selected <;> rfl

/-- Number of frames to wait with the menu gesture before opening the
menu, from src/webxr/openxr/input.rs line 17. -/
def MENU_GESTURE_SUSTAIN_THRESHOLD : Nat := 60

/-- The constant 0.95 both dot products are compared against in
src/webxr/openxr/input.rs lines 290 and 293, as the exact rational
19/20, built pre-reduced so that it evaluates by kernel reduction. -/
def gestureDotThreshold : ℚ := ⟨19, 20, by norm_num, by norm_num⟩

/-- The threshold constant equals 0.95. -/
theorem gestureDotThreshold_eq : gestureDotThreshold = 95 / 100 := by
  rw [gestureDotThreshold, Rat.mk'_eq_divInt]
  norm_num [Rat.divInt_eq_div]

/-- The per-tick inputs of the menu-gesture block of `OpenXRInput::frame`
(src/webxr/openxr/input.rs lines 267-307). `gripPresent` is whether the
resolved grip pose was Some; `alignDot` is the value the float code
computes for `gaze.dot(grip_x)` and `lookDot` the value of
`gaze.dot(input_relative)`, both given here as exact rationals. -/
structure GestureIn where
  gripPresent : Bool
  alignDot : ℚ
  lookDot : ℚ

/-- Embeds the menu-gesture block of `OpenXRInput::frame`
(src/webxr/openxr/input.rs lines 267-307) acting on the u8 field
`menu_gesture_sustain`, modelled as a Nat reduced mod 256 at the
increment. Returns the new counter and the `menu_selected` flag of the
tick. If the grip pose is absent, or either dot product fails its
`> 0.95` comparison, the counter is set to 0 and the flag is false;
otherwise the counter is incremented, and when it exceeds
MENU_GESTURE_SUSTAIN_THRESHOLD the flag is set and the counter reset. -/
def menuGestureStep (sustain : Nat) (g : GestureIn) : Nat × Bool :=
  if g.gripPresent then
    if g.alignDot > gestureDotThreshold then
      if g.lookDot > gestureDotThreshold then
        if (sustain + 1) % 256 > MENU_GESTURE_SUSTAIN_THRESHOLD then (0, true)
        else ((sustain + 1) % 256, false)
      else (0, false)
    else (0, false)
  else (0, false)

/-- The unbounded variant of `menuGestureStep`: the increment is plain
Nat addition with no mod-256 reduction. Used to state that the u8
increment never wraps on reachable counters. -/
def menuGestureStepU (sustain : Nat) (g : GestureIn) : Nat × Bool :=
  if g.gripPresent then
    if g.alignDot > gestureDotThreshold then
      if g.lookDot > gestureDotThreshold then
        if sustain + 1 > MENU_GESTURE_SUSTAIN_THRESHOLD then (0, true)
        else (sustain + 1, false)
      else (0, false)
    else (0, false)
  else (0, false)

/-- Runs `menuGestureStep` over a list of ticks, returning the final
counter and the list of per-tick `menu_selected` outputs in order. -/
def menuGestureRun (sustain : Nat) : List GestureIn → Nat × List Bool
  | [] => (sustain, [])
  | g :: rest =>
    let r := menuGestureStep sustain g
    let r2 := menuGestureRun r.1 rest
    (r2.1, r.2 :: r2.2)

/-- A concrete qualifying tick: grip present, both dot products 1. -/
def qualifyingTick : GestureIn :=
  { gripPresent := true, alignDot := 1, lookDot := 1 }

/-- C5: from counter 0, a run of consecutive qualifying ticks yields
menu_selected=false on each of the first 60 ticks, true on the 61st with
the counter reset to 0, and false on the 62nd with the counter at 1. -/
theorem sustain_threshold_boundary :
    (menuGestureRun 0 (List.replicate 62 qualifyingTick)).2
        = List.replicate 60 false ++ [true, false]
      ∧ (menuGestureRun 0 (List.replicate 61 qualifyingTick)).1 = 0
      ∧ (menuGestureRun 0 (List.replicate 62 qualifyingTick)).1 = 1 := by
  decide

/-- C9: the sustain counter is set to 0 with output false on every tick
where the qualifying condition fails (grip absent, alignment dot not
exceeding 0.95, or looking dot not exceeding 0.95); it is also set to 0
on a tick whose output is true; and after a disqualifying tick the next
qualifying tick counts from 1. -/
theorem sustain_reset_on_disqualify :
    (∀ (s : Nat) (g : GestureIn),
        (g.gripPresent = false ∨ g.alignDot ≤ 95 / 100 ∨ g.lookDot ≤ 95 / 100) →
        menuGestureStep s g = (0, false))
      ∧ (∀ (s : Nat) (g : GestureIn),
        (menuGestureStep s g).2 = true → (menuGestureStep s g).1 = 0)
      ∧ (∀ (s : Nat) (g g2 : GestureIn),
        (g.gripPresent = false ∨ g.alignDot ≤ 95 / 100 ∨ g.lookDot ≤ 95 / 100) →
        g2.gripPresent = true → 95 / 100 < g2.alignDot → 95 / 100 < g2.lookDot →
        menuGestureStep (menuGestureStep s g).1 g2 = (1, false)) := by
  have key : ∀ (s : Nat) (g : GestureIn),
      (g.gripPresent = false ∨ g.alignDot ≤ 95 / 100 ∨ g.lookDot ≤ 95 / 100) →
      menuGestureStep s g = (0, false) := by
    intro s g h
    rcases h with h | h | h
    · simp [menuGestureStep, h]
    · rw [← gestureDotThreshold_eq] at h
      simp [menuGestureStep, not_lt.mpr h]
    · rw [← gestureDotThreshold_eq] at h
      simp [menuGestureStep, not_lt.mpr h]
  refine ⟨key, ?_, ?_⟩
  · intro s g h
    unfold menuGestureStep at h ⊢
    split_ifs at h ⊢
    all_goals simp_all
  · intro s g g2 h hg ha hl
    rw [key s g h]
    rw [← gestureDotThreshold_eq] at ha hl
    simp [menuGestureStep, hg, ha, hl, MENU_GESTURE_SUSTAIN_THRESHOLD]

/-- Witness for sustain_reset_on_disqualify at concrete inputs: a
disqualifying tick (alignment dot 0.8) from counter 5 resets to 0; a
firing tick (counter 60, qualifying) leaves the counter at 0; and a
qualifying tick right after a disqualifying one yields counter 1. -/
theorem sustain_reset_on_disqualify_witness :
    menuGestureStep 5 { gripPresent := true, alignDot := 8 / 10, lookDot := 1 }
        = (0, false)
      ∧ (menuGestureStep 60 qualifyingTick).1 = 0
      ∧ menuGestureStep
          (menuGestureStep 5
            { gripPresent := true, alignDot := 8 / 10, lookDot := 1 }).1
          qualifyingTick = (1, false) :=
  ⟨sustain_reset_on_disqualify.1 5
      { gripPresent := true, alignDot := 8 / 10, lookDot := 1 }
      (Or.inr (Or.inl (by norm_num))),
    sustain_reset_on_disqualify.2.1 60 qualifyingTick (by decide),
    sustain_reset_on_disqualify.2.2 5
      { gripPresent := true, alignDot := 8 / 10, lookDot := 1 }
      qualifyingTick (Or.inr (Or.inl (by norm_num))) rfl
      (by norm_num [qualifyingTick]) (by norm_num [qualifyingTick])⟩

/-- On counters at most 60 the u8 step agrees with the unbounded step
and keeps the counter at most 60. -/
theorem menuGestureStep_bounded (s : Nat) (g : GestureIn) (hs : s ≤ 60) :
    menuGestureStep s g = menuGestureStepU s g
      ∧ (menuGestureStep s g).1 ≤ 60 := by
  have hmod : (s + 1) % 256 = s + 1 := Nat.mod_eq_of_lt (by omega)
  unfold menuGestureStep menuGestureStepU
  constructor
  · split
    · split
      · split
        · simp only [hmod]
        · rfl
      · rfl
    · rfl
  · split
    · split
      · split
        · simp only [hmod, MENU_GESTURE_SUSTAIN_THRESHOLD]
          split
          · exact Nat.zero_le 60
          · omega
        · exact Nat.zero_le 60
      · exact Nat.zero_le 60
    · exact Nat.zero_le 60

/-- The counter reached by any run from 0 stays at most 60. -/
theorem menuGestureRun_le (inputs : List GestureIn) :
    ∀ s : Nat, s ≤ 60 → (menuGestureRun s inputs).1 ≤ 60 := by
  induction inputs with
  | nil => intro s hs; exact hs
  | cons g rest ih =>
    intro s hs
    exact ih _ (menuGestureStep_bounded s g hs).2

/-- C10: along every run from the initial counter 0, the counter is at
most 60 after each tick, and on every reachable counter the u8 step
coincides with the unbounded step: the per-tick increment never wraps
mod 256. -/
theorem sustain_never_overflows (inputs : List GestureIn) :
    (menuGestureRun 0 inputs).1 ≤ 60
      ∧ ∀ g : GestureIn,
        menuGestureStep (menuGestureRun 0 inputs).1 g
          = menuGestureStepU (menuGestureRun 0 inputs).1 g := by
  have hle : (menuGestureRun 0 inputs).1 ≤ 60 :=
    menuGestureRun_le inputs 0 (Nat.zero_le 60)
  exact ⟨hle, fun g => (menuGestureStep_bounded _ g hle).1⟩

/-- Runs one button state machine over a list of per-tick inputs (the
raw sample and the menu_selected flag of each tick), collecting the
emitted events in order with the absent events dropped. -/
def runEvents : ClickState → List (ActionStateBool × Bool) → List SelectEvent
  | _, [] => []
  | s, (click, menu) :: rest =>
    match ClickState.update s click menu with
    | (s2, _, some e) => e :: runEvents s2 rest
    | (s2, _, none) => runEvents s2 rest

/-- Whether the phase expects a Start next: true in phase Done, false in
phase Clicking. -/
def expectStart : ClickState → Bool
  | ClickState.Done => true
  | ClickState.Clicking => false

/-- Alternation of an emitted event list: when the flag is true the next
event must be Start, when false it must be Select or End, flipping the
flag at each event. -/
def altFrom : Bool → List SelectEvent → Bool
  | _, [] => true
  | true, SelectEvent.Start :: es => altFrom false es
  | true, _ :: _ => false
  | false, SelectEvent.Start :: _ => false
  | false, _ :: es => altFrom true es

/-- The events emitted from any phase alternate between Start and
Select-or-End, starting with whichever the phase expects. -/
theorem altFrom_runEvents (inputs : List (ActionStateBool × Bool)) :
    ∀ s : ClickState, altFrom (expectStart s) (runEvents s inputs) = true := by
  induction inputs with
  | nil => intro s; cases s <;> rfl
  | cons p rest ih =>
    intro s
    obtain ⟨⟨a, c⟩, m⟩ := p
    cases s <;> cases a <;> cases c <;> cases m <;>
      simp only [runEvents, ClickState.update, altFrom, expectStart,
        Bool.true_and, Bool.false_and, if_true, if_false, ite_true,
        ite_false, reduceIte] <;>
      first
        | exact ih ClickState.Done
        | exact ih ClickState.Clicking

/-- In an alternating list, a block strictly between two Starts that
itself contains no Start is a single Select or a single End. -/
theorem altFrom_between (l2 l3 : List SelectEvent)
    (h : altFrom false (l2 ++ (SelectEvent.Start :: l3)) = true)
    (hnot : SelectEvent.Start ∉ l2) :
    l2 = [SelectEvent.Select] ∨ l2 = [SelectEvent.End] := by
  match l2, hnot with
  | [], _ => simp [altFrom] at h
  | [SelectEvent.Start], hnot => simp at hnot
  | [SelectEvent.Select], _ => exact Or.inl rfl
  | [SelectEvent.End], _ => exact Or.inr rfl
  | e1 :: e2 :: rest, hnot =>
    exfalso
    have h1 : e1 ≠ SelectEvent.Start := fun he => hnot (by simp [he])
    have h2 : e2 ≠ SelectEvent.Start := fun he => hnot (by simp [he])
    cases e1 with
    | Start => exact h1 rfl
    | Select =>
      cases e2 with
      | Start => exact h2 rfl
      | Select => simp [altFrom] at h
      | End => simp [altFrom] at h
    | End =>
      cases e2 with
      | Start => exact h2 rfl
      | Select => simp [altFrom] at h
      | End => simp [altFrom] at h

/-- Peeling a prefix off an alternating list leaves an alternating list
with the appropriate flag; in particular any suffix beginning at a Start
is alternating from the flag false after that Start. -/
theorem altFrom_suffix (l1 : List SelectEvent) :
    ∀ (b : Bool) (rest : List SelectEvent),
      altFrom b (l1 ++ (SelectEvent.Start :: rest)) = true →
      altFrom false rest = true := by
  induction l1 with
  | nil =>
    intro b rest h
    cases b
    · simp [altFrom] at h
    · simpa [altFrom] using h
  | cons e l1 ih =>
    intro b rest h
    cases b <;> cases e <;> simp only [List.cons_append, altFrom] at h <;>
      first
        | exact ih _ _ h
        | exact absurd h (by simp)

/-- C6: a Start is never emitted on a step whose pre-state phase is
Clicking; and in the event sequence emitted from phase Done, between any
two consecutive Start events there is exactly one Select-or-End event. -/
theorem no_double_start :
    (∀ (s : ClickState) (click : ActionStateBool) (menu : Bool),
        s = ClickState.Clicking →
        (ClickState.update s click menu).2.2 ≠ some SelectEvent.Start)
      ∧ ∀ (inputs : List (ActionStateBool × Bool))
          (l1 l2 l3 : List SelectEvent),
        runEvents ClickState.Done inputs
            = l1 ++ (SelectEvent.Start :: (l2 ++ (SelectEvent.Start :: l3))) →
        SelectEvent.Start ∉ l2 →
        l2.countP (fun e => e == SelectEvent.Select || e == SelectEvent.End)
          = 1 := by
  constructor
  · intro s click menu hs
    subst hs
    obtain ⟨a, c⟩ := click
    cases a <;> cases c <;> cases menu <;> simp [ClickState.update]
  · intro inputs l1 l2 l3 heq hnot
    have halt : altFrom true (runEvents ClickState.Done inputs) = true :=
      altFrom_runEvents inputs ClickState.Done
    rw [heq] at halt
    have h2 : altFrom false (l2 ++ (SelectEvent.Start :: l3)) = true :=
      altFrom_suffix l1 true (l2 ++ (SelectEvent.Start :: l3)) halt
    rcases altFrom_between l2 l3 h2 hnot with h | h <;> subst h <;> rfl

/-- Witness for no_double_start: the first part at phase Clicking with a
pressed sample, and the second on the input sequence press, release,
press, whose emitted events are Start, Select, Start. -/
theorem no_double_start_witness :
    (ClickState.update ClickState.Clicking
        { is_active := true, current_state := true } false).2.2
        ≠ some SelectEvent.Start
      ∧ List.countP
          (fun e => e == SelectEvent.Select || e == SelectEvent.End)
          [SelectEvent.Select] = 1 :=
  ⟨no_double_start.1 ClickState.Clicking
      { is_active := true, current_state := true } false rfl,
    no_double_start.2
      [({ is_active := true, current_state := true }, false),
        ({ is_active := true, current_state := false }, false),
        ({ is_active := true, current_state := true }, false)]
      [] [SelectEvent.Select] [] (by rfl) (by simp)⟩

/-- A transport-level fault of a backend query: the openxr call returned
an error Result rather than an answer. -/
inductive TransportFault where
  | fault
deriving DecidableEq, Repr

/-- How a tick can fail: the code applies `.unwrap()` to every backend
query result, so a transport-level fault makes the running Rust program
panic; `panicked` models that abort. The code defines no error value
that a caller could receive instead. -/
inductive TickError where
  | panicked
deriving DecidableEq, Repr

/-- Models `.unwrap()` on a backend query result: an error becomes a
panic of the whole tick. -/
def unwrapQ {α : Type} : Except TransportFault α → Except TickError α
  | Except.ok a => Except.ok a
  | Except.error _ => Except.error TickError.panicked

/-- The four flag bits of openxr::SpaceLocationFlags that exist in the
OpenXR spec, as a structure of Bools. -/
structure SpaceLocationFlags where
  orientation_valid : Bool
  position_valid : Bool
  orientation_tracked : Bool
  position_tracked : Bool
deriving DecidableEq, Repr

/-- Bitwise union of two flag sets, modelling the `|` operator on
openxr::SpaceLocationFlags. -/
def SpaceLocationFlags.union (a b : SpaceLocationFlags) : SpaceLocationFlags :=
  { orientation_valid := a.orientation_valid || b.orientation_valid
    position_valid := a.position_valid || b.position_valid
    orientation_tracked := a.orientation_tracked || b.orientation_tracked
    position_tracked := a.position_tracked || b.position_tracked }

/-- Models bitflags `intersects`: true when the two flag sets share at
least one set bit. -/
def SpaceLocationFlags.intersects (a b : SpaceLocationFlags) : Bool :=
  (a.orientation_valid && b.orientation_valid)
    || (a.position_valid && b.position_valid)
    || (a.orientation_tracked && b.orientation_tracked)
    || (a.position_tracked && b.position_tracked)

/-- The POSITION_VALID flag constant. -/
def SpaceLocationFlags.POSITION_VALID : SpaceLocationFlags :=
  { orientation_valid := false, position_valid := true
    orientation_tracked := false, position_tracked := false }

/-- The ORIENTATION_VALID flag constant. -/
def SpaceLocationFlags.ORIENTATION_VALID : SpaceLocationFlags :=
  { orientation_valid := true, position_valid := false
    orientation_tracked := false, position_tracked := false }

/-- The backend pose as reported in an openxr SpaceLocation: a rotation
quaternion and a position vector, idealized over the rationals. -/
structure Posef where
  orientation : ℚ × ℚ × ℚ × ℚ
  position : ℚ × ℚ × ℚ
deriving DecidableEq, Repr

/-- A rigid transform as used by the webxr API types. -/
structure RigidTransform where
  rotation : ℚ × ℚ × ℚ × ℚ
  translation : ℚ × ℚ × ℚ
deriving DecidableEq, Repr

/-- Modelled from the spec: `super::transform` (defined outside
src/webxr/openxr/input.rs) converts the backend pose into the rigid
transform the spec calls a Pose, carrying the same translation and
rotation; it is modelled as a repackaging of the same components. -/
def transform (p : Posef) : RigidTransform :=
  { rotation := p.orientation, translation := p.position }

/-- The result of `space.locate(base, time)`: location flags plus the
pose, as read by pose_for. -/
structure SpaceLocation where
  location_flags : SpaceLocationFlags
  pose : Posef
deriving DecidableEq, Repr

/-- Embeds `pose_for` (src/webxr/openxr/input.rs lines 336-352), with
the `locate` query result passed in: the `.unwrap()` on it panics on a
transport fault; otherwise the pose is returned exactly when
`location_flags.intersects(POSITION_VALID | ORIENTATION_VALID)` holds,
and None is returned otherwise. -/
def pose_for (location : Except TransportFault SpaceLocation) :
    Except TickError (Option RigidTransform) := do
  let location ← unwrapQ location
  let pose_valid := location.location_flags.intersects
    (SpaceLocationFlags.POSITION_VALID.union
      SpaceLocationFlags.ORIENTATION_VALID)
  if pose_valid then
    pure (some (transform location.pose))
  else
    pure none

/-- Left and right handedness, from webxr_api::Handedness as used by the
per-hand input sources. -/
inductive Handedness where
  | Left
  | Right
deriving DecidableEq, Repr

/-- The per-input-source mutable state of `OpenXRInput`
(src/webxr/openxr/input.rs lines 84-96), keeping the fields the per-tick
code reads and writes; the action and space handles live in the oracle. -/
structure OpenXRInput where
  id : Nat
  handedness : Handedness
  click_state : ClickState
  squeeze_state : ClickState
  menu_gesture_sustain : Nat
deriving DecidableEq, Repr

/-- The backend answers for one tick of one input source. `aimLoc` and
`gripLoc` are the `locate` results for the aim and grip spaces.
`clickQ n` is the result of the n-th `action_click.state(session,
Path::NULL)` call made during the tick, in call order, and `squeezeQ`
likewise for action_squeeze: `OpenXRInput::frame` calls each of them at
line 309 resp. 310 and then again inside `ClickState::update` (line 40),
so indices 0 and 1 are consumed each tick. `alignDot` and `lookDot` are
the values of the two gesture dot products, exact rationals standing for
the float vector arithmetic of lines 274-293. -/
structure TickOracle where
  aimLoc : Except TransportFault SpaceLocation
  gripLoc : Except TransportFault SpaceLocation
  clickQ : Nat → Except TransportFault ActionStateBool
  squeezeQ : Nat → Except TransportFault ActionStateBool
  alignDot : ℚ
  lookDot : ℚ

/-- The public per-tick record, from webxr_api::InputFrame as built at
src/webxr/openxr/input.rs lines 319-325. -/
structure InputFrame where
  target_ray_origin : Option RigidTransform
  id : Nat
  pressed : Bool
  squeezed : Bool
  grip_origin : Option RigidTransform
deriving DecidableEq, Repr

/-- All the information on a single input frame, from `struct Frame`
(src/webxr/openxr/input.rs lines 26-31). -/
structure Frame where
  frame : InputFrame
  select : Option SelectEvent
  squeeze : Option SelectEvent
  menu_selected : Bool
deriving DecidableEq, Repr

/-- Embeds `OpenXRInput::frame` (src/webxr/openxr/input.rs lines
255-333) for one tick, with the backend supplied by the oracle. In
source order: resolve the aim pose, resolve the grip pose, run the
menu-gesture block on the sustain counter, query the click state (line
309) and the squeeze state (line 310), run `ClickState::update` for
click and then squeeze (each performing its own second state query), and
assemble the InputFrame, whose pressed flag combines is_active from the
update call with current_state from the line-309 sample (and squeezed
likewise from line 310). Returns the mutated state with the Frame; a
transport fault at any query panics the tick. -/
def OpenXRInput.frame (self : OpenXRInput) (o : TickOracle) :
    Except TickError (OpenXRInput × Frame) := do
  let target_ray_origin ← pose_for o.aimLoc
  let grip_origin ← pose_for o.gripLoc
  let gstep := menuGestureStep self.menu_gesture_sustain
    { gripPresent := grip_origin.isSome
      alignDot := o.alignDot
      lookDot := o.lookDot }
  let menu_selected := gstep.2
  let click ← unwrapQ (o.clickQ 0)
  let squeeze ← unwrapQ (o.squeezeQ 0)
  let clickSample ← unwrapQ (o.clickQ 1)
  let cres := ClickState.update self.click_state clickSample menu_selected
  let squeezeSample ← unwrapQ (o.squeezeQ 1)
  let sres := ClickState.update self.squeeze_state squeezeSample menu_selected
  let click_is_active := cres.2.1
  let squeeze_is_active := sres.2.1
  let input_frame : InputFrame :=
    { target_ray_origin := target_ray_origin
      id := self.id
      pressed := click_is_active && click.current_state
      squeezed := squeeze_is_active && squeeze.current_state
      grip_origin := grip_origin }
  pure
    ({ self with
        click_state := cres.1
        squeeze_state := sres.1
        menu_gesture_sustain := gstep.1 },
      { frame := input_frame
        select := cres.2.2
        squeeze := sres.2.2
        menu_selected := menu_selected })

/-- The update call reports is_active exactly as sampled. -/
theorem update_is_active (c : ClickState) (s : ActionStateBool) (m : Bool) :
    (ClickState.update c s m).2.1 = s.is_active := by
  obtain ⟨a, cs⟩ := s
  cases a <;> cases cs <;> cases c <;> cases m <;> rfl

/-- Bind on a successful Except applies the continuation. -/
theorem bindOk {ε α β : Type} (a : α) (f : α → Except ε β) :
    (Except.ok a : Except ε α) >>= f = f a := rfl

/-- Bind on a failed Except propagates the error. -/
theorem bindErr {ε α β : Type} (e : ε) (f : α → Except ε β) :
    (Except.error e : Except ε α) >>= f = Except.error e := rfl

/-- Pure in the Except monad is ok. -/
theorem pureOk {ε α : Type} (a : α) :
    (pure a : Except ε α) = Except.ok a := rfl

/-- pose_for on a successful locate never fails: it returns the pose
exactly when the flag intersection test passes. -/
theorem pose_for_ok (l : SpaceLocation) :
    pose_for (Except.ok l)
      = Except.ok
          (if l.location_flags.intersects
              (SpaceLocationFlags.POSITION_VALID.union
                SpaceLocationFlags.ORIENTATION_VALID)
            then some (transform l.pose) else none) := by
  simp only [pose_for, unwrapQ, bindOk]
  split <;> rfl

/-- pose_for on a transport fault panics. -/
theorem pose_for_err (e : TransportFault) :
    pose_for (Except.error e) = Except.error TickError.panicked := rfl

/-- A location whose flags are all clear, with the identity pose. -/
def invalidLocation : SpaceLocation :=
  { location_flags :=
      { orientation_valid := false, position_valid := false
        orientation_tracked := false, position_tracked := false }
    pose := { orientation := (0, 0, 0, 1), position := (0, 0, 0) } }

/-- An input source at rest: both buttons Done, counter 0. -/
def inputDone : OpenXRInput :=
  { id := 0
    handedness := Handedness.Right
    click_state := ClickState.Done
    squeeze_state := ClickState.Done
    menu_gesture_sustain := 0 }

/-- An oracle whose two click queries of the tick disagree: the line-309
query reports the button pressed, the query made inside update reports
it released; both poses resolve to None and squeeze is idle. -/
def splitClickOracle : TickOracle :=
  { aimLoc := Except.ok invalidLocation
    gripLoc := Except.ok invalidLocation
    clickQ := fun n =>
      Except.ok (if n = 0 then { is_active := true, current_state := true }
        else { is_active := true, current_state := false })
    squeezeQ := fun _ =>
      Except.ok { is_active := false, current_state := false }
    alignDot := 0
    lookDot := 0 }

/-- C2 counterexample: on splitClickOracle the tick reports
pressed=true, yet the sample that drove the click state machine (the
second query of the tick) has is_active && current_state = false: the
pressed flag is not a derived view of the single driving sample, because
the backend is queried twice and the two samples are mixed. -/
theorem pressed_mixes_two_samples :
    ((OpenXRInput.frame inputDone splitClickOracle).map
        fun r => r.2.frame.pressed) = Except.ok true
      ∧ ((splitClickOracle.clickQ 1).map
        fun s => s.is_active && s.current_state) = Except.ok false :=
  ⟨rfl, rfl⟩

/-- C2 amended: the backend button state is queried twice per button per
tick (indices 0 and 1 of the oracle); when both queries of a button
return the same sample, the reported pressed (resp. squeezed) flag
equals is_active && current_state of that sample. -/
theorem pressed_derived_when_queries_agree (st : OpenXRInput)
    (o : TickOracle) (s t : ActionStateBool)
    (hc0 : o.clickQ 0 = Except.ok s) (hc1 : o.clickQ 1 = Except.ok s)
    (hs0 : o.squeezeQ 0 = Except.ok t) (hs1 : o.squeezeQ 1 = Except.ok t)
    (st2 : OpenXRInput) (f : Frame)
    (hf : OpenXRInput.frame st o = Except.ok (st2, f)) :
    f.frame.pressed = (s.is_active && s.current_state)
      ∧ f.frame.squeezed = (t.is_active && t.current_state) := by
  cases ha : o.aimLoc with
  | error e =>
    rw [OpenXRInput.frame, ha, pose_for_err, bindErr] at hf
    exact absurd hf (by simp)
  | ok la =>
    cases hg : o.gripLoc with
    | error e =>
      rw [OpenXRInput.frame, ha, hg, pose_for_ok, bindOk, pose_for_err,
        bindErr] at hf
      exact absurd hf (by simp)
    | ok lg =>
      rw [OpenXRInput.frame, ha, hg, pose_for_ok, bindOk, pose_for_ok,
        bindOk, hc0, hc1, hs0, hs1] at hf
      simp only [unwrapQ, bindOk, pureOk, Except.map_ok,
        Except.ok.injEq, Prod.mk.injEq] at hf
      obtain ⟨h1, h2⟩ := hf
      subst h2
      exact ⟨by simp [update_is_active], by simp [update_is_active]⟩

/-- An oracle whose click queries agree on an active pressed sample and
whose squeeze queries agree on an active released one; the poses do not
resolve. -/
def agreeOracle : TickOracle :=
  { aimLoc := Except.ok invalidLocation
    gripLoc := Except.ok invalidLocation
    clickQ := fun _ =>
      Except.ok { is_active := true, current_state := true }
    squeezeQ := fun _ =>
      Except.ok { is_active := true, current_state := false }
    alignDot := 0
    lookDot := 0 }

/-- The tick result of inputDone on agreeOracle. -/
def agreeResult : OpenXRInput × Frame :=
  ({ id := 0
     handedness := Handedness.Right
     click_state := ClickState.Clicking
     squeeze_state := ClickState.Done
     menu_gesture_sustain := 0 },
    { frame :=
        { target_ray_origin := none
          id := 0
          pressed := true
          squeezed := false
          grip_origin := none }
      select := some SelectEvent.Start
      squeeze := none
      menu_selected := false })

/-- Witness for pressed_derived_when_queries_agree: on agreeOracle the
reported pressed flag is true && true and the squeezed flag is
true && false. -/
theorem pressed_derived_when_queries_agree_witness :
    agreeResult.2.frame.pressed = (true && true)
      ∧ agreeResult.2.frame.squeezed = (true && false) :=
  pressed_derived_when_queries_agree inputDone agreeOracle
    { is_active := true, current_state := true }
    { is_active := true, current_state := false }
    rfl rfl rfl rfl agreeResult.1 agreeResult.2 rfl

/-- A location reporting only POSITION_VALID: orientation invalid. -/
def onlyPositionValidLocation : SpaceLocation :=
  { location_flags :=
      { orientation_valid := false, position_valid := true
        orientation_tracked := false, position_tracked := false }
    pose := { orientation := (0, 0, 0, 1), position := (1, 2, 3) } }

/-- C3: pose_for on a location with only the position-valid flag set
returns Some, because the source tests the flags with `intersects`
(at least one bit) where the claim and the name pose_valid require both
bits: the code diverges from the claim on this input. -/
theorem pose_for_accepts_single_flag :
    pose_for (Except.ok onlyPositionValidLocation)
        = Except.ok (some (transform onlyPositionValidLocation.pose))
      ∧ onlyPositionValidLocation.location_flags.orientation_valid = false :=
  ⟨rfl, rfl⟩

/-- An oracle whose first click-state query faults at the transport
level while the pose queries succeed. -/
def faultedClickOracle : TickOracle :=
  { aimLoc := Except.ok invalidLocation
    gripLoc := Except.ok invalidLocation
    clickQ := fun _ => Except.error TransportFault.fault
    squeezeQ := fun _ =>
      Except.ok { is_active := false, current_state := false }
    alignDot := 0
    lookDot := 0 }

/-- C4 counterexample: on a tick whose click-state query faults, frame
does not return any error value the caller could receive, nor a record:
the unwrap panics, modelled as the panicked abort. The code defines no
TrackingQueryError-like value at all. -/
theorem frame_panics_counterexample :
    OpenXRInput.frame inputDone faultedClickOracle
      = Except.error TickError.panicked := rfl

/-- C4 amended: when any backend state or pose query of the tick faults
at the transport level - the aim locate, the grip locate, the line-309
click query, the line-310 squeeze query, or either repeated query inside
update - the tick aborts by panic (the unwrap), producing no input-frame
record and substituting no defaults, but also returning no error value
to the caller. -/
theorem frame_panics_on_query_fault (st : OpenXRInput) (o : TickOracle)
    (h : o.aimLoc = Except.error TransportFault.fault
      ∨ o.gripLoc = Except.error TransportFault.fault
      ∨ o.clickQ 0 = Except.error TransportFault.fault
      ∨ o.squeezeQ 0 = Except.error TransportFault.fault
      ∨ o.clickQ 1 = Except.error TransportFault.fault
      ∨ o.squeezeQ 1 = Except.error TransportFault.fault) :
    OpenXRInput.frame st o = Except.error TickError.panicked := by
  cases ha : o.aimLoc with
  | error e => rw [OpenXRInput.frame, ha, pose_for_err, bindErr]
  | ok la =>
    cases hg : o.gripLoc with
    | error e =>
      rw [OpenXRInput.frame, ha, hg, pose_for_ok, bindOk, pose_for_err,
        bindErr]
    | ok lg =>
      cases hc0 : o.clickQ 0 with
      | error e =>
        rw [OpenXRInput.frame, ha, hg, pose_for_ok, bindOk, pose_for_ok,
          bindOk, hc0]
        rfl
      | ok c0 =>
        cases hs0 : o.squeezeQ 0 with
        | error e =>
          rw [OpenXRInput.frame, ha, hg, pose_for_ok, bindOk, pose_for_ok,
            bindOk, hc0, hs0]
          rfl
        | ok s0 =>
          cases hc1 : o.clickQ 1 with
          | error e =>
            rw [OpenXRInput.frame, ha, hg, pose_for_ok, bindOk,
              pose_for_ok, bindOk, hc0, hs0, hc1]
            rfl
          | ok c1 =>
            cases hs1 : o.squeezeQ 1 with
            | error e =>
              rw [OpenXRInput.frame, ha, hg, pose_for_ok, bindOk,
                pose_for_ok, bindOk, hc0, hs0, hc1, hs1]
              rfl
            | ok s1 =>
              rcases h with h | h | h | h | h | h <;> simp_all

/-- An oracle all of whose pose and button queries fault. -/
def allFaultedOracle : TickOracle :=
  { aimLoc := Except.error TransportFault.fault
    gripLoc := Except.error TransportFault.fault
    clickQ := fun _ => Except.error TransportFault.fault
    squeezeQ := fun _ => Except.error TransportFault.fault
    alignDot := 0
    lookDot := 0 }

/-- Witness for frame_panics_on_query_fault at a concrete oracle whose
pose and button queries all fault: the tick panics. -/
theorem frame_panics_on_query_fault_witness :
    OpenXRInput.frame inputDone allFaultedOracle
      = Except.error TickError.panicked :=
  frame_panics_on_query_fault inputDone allFaultedOracle (Or.inl rfl)

end WebXR
